import Mathlib

/-
Verification of crop_france_aws_v1.py, a script that crops and masks
climate-model grid files to a France bounding box.

The Lean definitions below are a shallow embedding of the python source:
  - get_coordinates_info (source lines 15-61) classifies a dataset into one
    of three grid conventions from its dimension and variable names;
  - process_netcdf_file (source lines 63-185) crops a dataset to the France
    region, interpolates a reference land sea mask onto its grid, applies the
    mask variable by variable, writes the result, and checks the original
    file still exists;
  - process_all_directories (source lines 197-245) folds the per file
    processing over a list of files, counting successes and failures, with a
    catch all that converts every per file exception into a failure count.

Numeric data is modelled with rationals. Missing values (NaN fill produced
by xarray where) are modelled with Option, none standing for the missing
value sentinel. Data payloads of variables are modelled as functions from a
time index and the geographic coordinate values of a cell to the cell value,
so that label based cropping restricts the coordinate axis lists and leaves
the payload function unchanged, exactly as xarray sel does.
-/

/-- Boolean test that the first code point list is a prefix of the second. -/
def listPrefixOf : List Nat → List Nat → Bool
  | [], _ => true
  | _ :: _, [] => false
  | a :: as, b :: bs => a == b && listPrefixOf as bs

/-- Boolean test that the first code point list occurs contiguously in the
second. -/
def listInfixOf (needle : List Nat) : List Nat → Bool
  | [] => needle.isEmpty
  | b :: bs => listPrefixOf needle (b :: bs) || listInfixOf needle bs

/-- Code points of a string. -/
def natsOf (s : String) : List Nat :=
  s.toList.map (fun c => c.toNat)

/-- ASCII lowercasing of one code point, the folding python lower performs on
the names appearing here. -/
def lowerCode (n : Nat) : Nat :=
  if 65 ≤ n ∧ n ≤ 90 then n + 32 else n

/-- Lowercased code points of a string. -/
def lowerNats (s : String) : List Nat :=
  s.toList.map (fun c => lowerCode c.toNat)

/-- Embedding of the python substring test: needle in hay. -/
def strContains (hay needle : String) : Bool :=
  listInfixOf (natsOf needle) (natsOf hay)

/-- A named variable of a dataset together with its ordered dimension tuple. -/
structure NCVar where
  name : String
  dims : List String
deriving DecidableEq, Repr

/-- The part of a netCDF dataset that classification inspects: the declared
dimension names and the variables in declaration order. -/
structure Dataset where
  dims : List String
  vars : List NCVar
deriving DecidableEq, Repr

/-- Embedding of: any(name in var.lower() for name in ["lat", "latitude"])
(source line 36). -/
def isLatName (s : String) : Bool :=
  listInfixOf (natsOf "lat") (lowerNats s) || listInfixOf (natsOf "latitude") (lowerNats s)

/-- Embedding of: any(name in var.lower() for name in ["lon", "longitude"])
(source line 38). -/
def isLonName (s : String) : Bool :=
  listInfixOf (natsOf "lon") (lowerNats s) || listInfixOf (natsOf "longitude") (lowerNats s)

/-- Rule 1 of the classification (source line 20): a variable named
rotated_pole exists and dimensions rlat and rlon exist. -/
def rule1 (ds : Dataset) : Bool :=
  ds.vars.any (fun v => v.name == "rotated_pole") &&
    ds.dims.contains "rlat" && ds.dims.contains "rlon"

/-- Rule 2 guard of the classification (source line 28): dimensions y and x
both exist. -/
def hasYX (ds : Dataset) : Bool :=
  ds.dims.contains "y" && ds.dims.contains "x"

/-- One step of the variable scan of rule 2 (source lines 34-39). The python
loop has no break and overwrites the accumulator on every match, and tests
the latitude patterns before the longitude patterns with elif. -/
def projStep (acc : Option String × Option String) (v : NCVar) :
    Option String × Option String :=
  if v.dims = ["y", "x"] then
    if isLatName v.name = true then (some v.name, acc.2)
    else if isLonName v.name = true then (acc.1, some v.name)
    else acc
  else acc

/-- The full variable scan of rule 2, a left fold over the variables in
declaration order starting from a pair of empty accumulators. -/
def projVars (vars : List NCVar) : Option String × Option String :=
  vars.foldl projStep (none, none)

/-- Rule 3 latitude candidates (source line 51): dimensions whose lowercased
name is exactly lat or latitude, in declaration order. -/
def latCandidates (ds : Dataset) : List String :=
  ds.dims.filter (fun d => lowerNats d == natsOf "lat" || lowerNats d == natsOf "latitude")

/-- Rule 3 longitude candidates (source line 52). -/
def lonCandidates (ds : Dataset) : List String :=
  ds.dims.filter (fun d => lowerNats d == natsOf "lon" || lowerNats d == natsOf "longitude")

/-- Result of the coordinate system classification. -/
inductive CoordsInfo where
  | rotatedPole (latName lonName : String)
  | projected (xName yName latVar lonVar : String)
  | latlon (latName lonName : String)
deriving DecidableEq, Repr

/-- Rule 3 and the failure case (source lines 50-61): take the first latitude
candidate and the first longitude candidate if both exist, otherwise raise
carrying the list of all variable names. -/
def latlonRule (ds : Dataset) : Except (List String) CoordsInfo :=
  match latCandidates ds, lonCandidates ds with
  | la :: _, lo :: _ => Except.ok (CoordsInfo.latlon la lo)
  | _, _ => Except.error (ds.vars.map (fun v => v.name))

/-- Embedding of get_coordinates_info (source lines 15-61). Rule order: the
rotated pole test, then the projected y x scan, then the direct lat lon
dimension scan, then the error. When the y x scan does not find both
variables, control falls through to rule 3, as in the python. -/
def get_coordinates_info (ds : Dataset) : Except (List String) CoordsInfo :=
  if rule1 ds = true then Except.ok (CoordsInfo.rotatedPole "rlat" "rlon")
  else if hasYX ds = true then
    match projVars ds.vars with
    | (some la, some lo) => Except.ok (CoordsInfo.projected "x" "y" la lo)
    | _ => latlonRule ds
  else latlonRule ds

/-- First of two options, falling back to the second. -/
def oor (a b : Option String) : Option String :=
  match a with
  | some x => some x
  | none => b

/-- The contribution of a single variable to the latitude accumulator of the
rule 2 scan. -/
def latHit (v : NCVar) : Option String :=
  if v.dims = ["y", "x"] then
    (if isLatName v.name = true then some v.name else none)
  else none

/-- The contribution of a single variable to the longitude accumulator of the
rule 2 scan. The elif makes a latitude matching name invisible to the
longitude accumulator. -/
def lonHit (v : NCVar) : Option String :=
  if v.dims = ["y", "x"] then
    (if isLatName v.name = true then none
     else if isLonName v.name = true then some v.name else none)
  else none

/-- The last variable of the list contributing a latitude hit, the value the
overwriting fold ends with. -/
def lastLatVar : List NCVar → Option String
  | [] => none
  | v :: vs => oor (lastLatVar vs) (latHit v)

/-- The last variable of the list contributing a longitude hit. -/
def lastLonVar : List NCVar → Option String
  | [] => none
  | v :: vs => oor (lastLonVar vs) (lonHit v)

/-- Modelled from the spec: the claim of C3 says the FIRST variable with
dimension tuple (y, x) whose name contains a latitude pattern is selected.
This definition follows the words of the claim, for comparison with the
fold in the source. -/
def firstLatVarSpec (vars : List NCVar) : Option String :=
  ((vars.filter (fun v => decide (v.dims = ["y", "x"]) && isLatName v.name)).head?).map
    (fun v => v.name)

/-- Boolean test that a list of rationals is sorted in nondecreasing order,
the monotonicity pandas checks before slicing by label. -/
def isAscending : List ℚ → Bool
  | a :: b :: rest => decide (a ≤ b) && isAscending (b :: rest)
  | _ => true

/-- Embedding of label based slice selection, ds.sel(slice(lo, hi)) on a
monotonic axis (source lines 93-96). On a nondecreasing axis pandas keeps
the values between lo and hi inclusive. On a nonincreasing axis pandas
interprets the bounds in axis order, keeping the values v with hi ≤ v ≤ lo,
which is empty whenever lo < hi. -/
def selSlice (xs : List ℚ) (lo hi : ℚ) : List ℚ :=
  if isAscending xs = true then
    xs.filter (fun v => decide (lo ≤ v) && decide (v ≤ hi))
  else
    xs.filter (fun v => decide (hi ≤ v) && decide (v ≤ lo))

/-- Arithmetic axis with n points starting at a with the given step. -/
def mkRange (a : ℚ) (n : Nat) (step : ℚ) : List ℚ :=
  (List.range n).map (fun i => a + (i : ℚ) * step)

/-- Index of the axis point nearest to q, ties resolved to the smallest
index, a deterministic proximity order for the nearest neighbour lookup of
the mask interpolation (source lines 120-124). -/
def nearestIdx (axis : List ℚ) (q : ℚ) : Nat :=
  (List.range axis.length).foldl
    (fun best i => if |axis.getD i 0 - q| < |axis.getD best 0 - q| then i else best) 0

/-- The reference mask dataset: the name of its mask variable, the names of
the coordinate axes of that variable, the axis values, and the boolean cell
values. -/
structure MaskDataset where
  varName : String
  dims : List String
  latAxis : List ℚ
  lonAxis : List ℚ
  values : Nat → Nat → Bool

/-- The access pattern of source lines 120-124: the attribute access
mask_ds.land_sea_mask requires a variable literally named land_sea_mask, and
interp(latitude=…, longitude=…) requires coordinates literally named
latitude and longitude on that variable. Any other names raise. -/
def maskOk (m : MaskDataset) : Bool :=
  m.varName == "land_sea_mask" && m.dims.contains "latitude" &&
    m.dims.contains "longitude"

/-- Nearest neighbour value of the reference mask at a geographic point. -/
def nearestMask (m : MaskDataset) (la lo : ℚ) : Bool :=
  m.values (nearestIdx m.latAxis la) (nearestIdx m.lonAxis lo)

/-- What the masking loop (source lines 128-142) decides to do with one data
variable. applied carries the number of leading axes the mask is expanded
with. -/
inductive MaskAction where
  | boundsApplied
  | applied (leadingAxes : Nat)
  | untouched
deriving DecidableEq, Repr

/-- The flattened dimension list of the any test on source lines 135-136. -/
def spatialAnyList : List String := ["y", "x", "rlat", "rlon"]

/-- The dimension list of the expand loop on source lines 139-141. -/
def spatialExcludeList : List String := ["x", "y", "rlat", "rlon"]

/-- Branch selection of the masking loop for one variable (source lines
128-142): the bounds branch when the variable name contains bounds and an
nvertex dimension exists; else the mask is applied when any of y, x, rlat,
rlon is among the dimensions of the variable, expanded with one leading axis
per dimension outside that set; else the variable is left untouched. -/
def maskActionFor (name : String) (dims : List String) : MaskAction :=
  if strContains name "bounds" = true ∧ "nvertex" ∈ dims then
    MaskAction.boundsApplied
  else if ∃ d ∈ spatialAnyList, d ∈ dims then
    MaskAction.applied ((dims.filter (fun d => decide (d ∉ spatialExcludeList))).length)
  else MaskAction.untouched

/-- Modelled from the spec: the claim of C4 applies the mask exactly when the
dimensions include a full spatial axis pair, both of y and x or both of rlat
and rlon. This follows the words of the claim, for comparison with the any
test in the source. -/
def hasSpatialPairB (dims : List String) : Bool :=
  (decide ("y" ∈ dims) && decide ("x" ∈ dims)) ||
    (decide ("rlat" ∈ dims) && decide ("rlon" ∈ dims))

/-- A data variable of a latitude longitude dataset: its name, dimension
tuple, and payload, a function of the time index and the geographic
coordinate values of a cell. none models the missing value sentinel. -/
structure LLVar where
  name : String
  dims : List String
  data : Nat → ℚ → ℚ → Option ℚ

/-- Application of the aligned mask to one variable, following the branch
selected by maskActionFor: where the mask is false the cell becomes the
missing value sentinel, where it is true the cell is unchanged; an untouched
variable is returned as is. The bounds branch replicates the mask across all
vertex positions, which per base cell is the same pointwise masking. -/
def applyMaskToVar (mask : ℚ → ℚ → Bool) (v : LLVar) : LLVar :=
  match maskActionFor v.name v.dims with
  | MaskAction.untouched => v
  | _ => { v with data := fun t la lo => if mask la lo then v.data t la lo else none }

/-- An input file: the naming metadata used by classification, the 1D
coordinate axes of the direct lat lon case, the data variables, and the 2D
coordinate fields of the projected and rotated pole case, given by the
values of the variables literally named lat and lon on a grid of ny by nx
cells. -/
structure NCFile where
  meta : Dataset
  lats1 : List ℚ
  lons1 : List ℚ
  dataVars : List LLVar
  lat2 : Nat → Nat → ℚ
  lon2 : Nat → Nat → ℚ
  ny : Nat
  nx : Nat

/-- The France predicate of source line 110. -/
def france_mask (la lo : ℚ) : Bool :=
  decide (41 ≤ la) && decide (la ≤ mkRat 103 2) && decide (-5 ≤ lo) && decide (lo ≤ 10)

/-- Row indices kept by ds.where(france_mask, drop=True) (source line 113):
xarray keeps every row index at which the condition holds somewhere. -/
def keptRows (f : NCFile) : List Nat :=
  (List.range f.ny).filter
    (fun i => (List.range f.nx).any (fun j => france_mask (f.lat2 i j) (f.lon2 i j)))

/-- Column indices kept by ds.where(france_mask, drop=True). -/
def keptCols (f : NCFile) : List Nat :=
  (List.range f.nx).filter
    (fun j => (List.range f.ny).any (fun i => france_mask (f.lat2 i j) (f.lon2 i j)))

/-- The projected and rotated pole branch reads ds["lat"] and ds["lon"] with
hardcoded names (source lines 104-107); the access raises KeyError unless
variables with those literal names exist. -/
def hasHardcodedLatLonVars (ds : Dataset) : Bool :=
  ds.vars.any (fun v => v.name == "lat") && ds.vars.any (fun v => v.name == "lon")

/-- Final component of a path, the python Path name attribute. -/
def pathName (p : List String) : String :=
  (p.getLast?).getD ""

/-- The computed output path, output_dir / ("france_" + input name), source
line 71. Paths are modelled as their component lists after pathlib parsing. -/
def outputFileFor (inputPath outDir : List String) : List String :=
  outDir ++ ["france_" ++ pathName inputPath]

/-- Error outcomes of processing one file. -/
inductive ProcErr where
  | pathCollision
  | classification (varNames : List String)
  | keyError
  | maskAccess
  | integrity
deriving DecidableEq, Repr

/-- Observable output of processing one file: for a direct lat lon dataset
the cropped axes and the masked data variables, for a projected or rotated
pole dataset the row and column indices surviving the drop. -/
inductive Output where
  | latlonOut (lats lons : List ℚ) (vars : List LLVar)
  | projOut (keptRows keptCols : List Nat)

/-- Embedding of process_netcdf_file (source lines 63-185). Order of
operations as in the source: the path collision guard before anything else;
classification; for the direct lat lon case the slice crop, then the mask
interpolation, then the masking loop; for the projected and rotated pole
case the hardcoded lat lon variable access, the drop crop, then the mask
interpolation; then the write and the integrity check that the original
input still exists. inputSurvives models whether the original file is still
present when the post write check of source line 154 runs. -/
def process_netcdf_file (inputPath outDir : List String) (f : NCFile)
    (m : MaskDataset) (inputSurvives : Bool) : Except ProcErr Output :=
  if outputFileFor inputPath outDir = inputPath then Except.error ProcErr.pathCollision
  else
    match get_coordinates_info f.meta with
    | Except.error names => Except.error (ProcErr.classification names)
    | Except.ok (CoordsInfo.latlon _ _) =>
      if maskOk m = true then
        if inputSurvives = true then
          Except.ok (Output.latlonOut (selSlice f.lats1 41 (mkRat 103 2))
            (selSlice f.lons1 (-5) 10)
            (f.dataVars.map (applyMaskToVar (nearestMask m))))
        else Except.error ProcErr.integrity
      else Except.error ProcErr.maskAccess
    | Except.ok _ =>
      if hasHardcodedLatLonVars f.meta = true then
        if maskOk m = true then
          if inputSurvives = true then
            Except.ok (Output.projOut (keptRows f) (keptCols f))
          else Except.error ProcErr.integrity
        else Except.error ProcErr.maskAccess
      else Except.error ProcErr.keyError

/-- Boolean observation: the processing result is an error. -/
def resIsError : Except ProcErr Output → Bool
  | Except.error _ => true
  | Except.ok _ => false

/-- Boolean observation: the processing result is the path collision error. -/
def resIsPathCollision : Except ProcErr Output → Bool
  | Except.error ProcErr.pathCollision => true
  | _ => false

/-- The error of a failed result. -/
def resErr : Except ProcErr Output → Option ProcErr
  | Except.error e => some e
  | Except.ok _ => none

/-- Latitude axis of a successful lat lon output. -/
def resLats : Except ProcErr Output → List ℚ
  | Except.ok (Output.latlonOut l _ _) => l
  | _ => []

/-- Longitude axis of a successful lat lon output. -/
def resLons : Except ProcErr Output → List ℚ
  | Except.ok (Output.latlonOut _ l _) => l
  | _ => []

/-- Value of the first data variable of a successful lat lon output at a
given time index and geographic cell. -/
def resFirstVarAt : Except ProcErr Output → Nat → ℚ → ℚ → Option ℚ
  | Except.ok (Output.latlonOut _ _ (v :: _)), t, la, lo => v.data t la lo
  | _, _, _, _ => none

/-- Kept row indices of a successful projected output. -/
def resKeptRows : Except ProcErr Output → List Nat
  | Except.ok (Output.projOut r _) => r
  | _ => []

/-- Kept column indices of a successful projected output. -/
def resKeptCols : Except ProcErr Output → List Nat
  | Except.ok (Output.projOut _ c) => c
  | _ => []

/-- One file of a batch run: the arguments process_netcdf_file is called
with. -/
structure Job where
  inputPath : List String
  outDir : List String
  file : NCFile
  mask : MaskDataset
  inputSurvives : Bool

/-- The counters of process_all_directories. -/
structure BatchStats where
  total : Nat
  processed : Nat
  failed : Nat
deriving DecidableEq, Repr

/-- One iteration of the batch loop (source lines 221-236): the try block
around the per file call catches every exception and converts it into an
increment of the failure counter, then the loop continues. -/
def batchStep (s : BatchStats) (j : Job) : BatchStats :=
  match process_netcdf_file j.inputPath j.outDir j.file j.mask j.inputSurvives with
  | Except.ok _ => { s with processed := s.processed + 1 }
  | Except.error _ => { s with failed := s.failed + 1 }

/-- Embedding of process_all_directories (source lines 197-245), restricted
to the counters the claims are about. -/
def process_all_directories (jobs : List Job) : BatchStats :=
  jobs.foldl batchStep { total := jobs.length, processed := 0, failed := 0 }

/-- The exit paths of process_netcdf_file at the moment the finally block of
source lines 178-185 starts running. -/
inductive ExitPath where
  | openMaskFailed
  | openInputFailed
  | errorBeforeMaskedCopy
  | errorAfterMaskedCopy
  | normalReturn
deriving DecidableEq, Repr

/-- Which handles were bound as local variables and which are open when the
finally block starts. -/
structure HandleState where
  maskDefined : Bool
  dsDefined : Bool
  maskedDefined : Bool
  maskOpen : Bool
  dsOpen : Bool
  maskedOpen : Bool
deriving DecidableEq, Repr

/-- Handle state at the start of the finally block on each exit path. mask_ds
is opened first (source line 80), ds second (line 81), ds_masked is created
at line 127; the error paths before line 127 leave ds_masked unbound, and a
failure of the input open leaves ds unbound. -/
def stateAtFinally : ExitPath → HandleState
  | ExitPath.openMaskFailed => ⟨false, false, false, false, false, false⟩
  | ExitPath.openInputFailed => ⟨true, false, false, true, false, false⟩
  | ExitPath.errorBeforeMaskedCopy => ⟨true, true, false, true, true, false⟩
  | ExitPath.errorAfterMaskedCopy => ⟨true, true, true, true, true, true⟩
  | ExitPath.normalReturn => ⟨true, true, true, true, true, true⟩

/-- Embedding of the finally block (source lines 178-185): it runs
ds.close(), ds_masked.close(), mask_ds.close() in that order inside a try
whose bare except suppresses the first failure and abandons the rest of the
sequence. Referencing an unbound local raises NameError, so the sequence
stops at the first close whose variable was never bound. -/
def runFinally (s : HandleState) : HandleState :=
  if s.dsDefined = false then s
  else
    let s1 : HandleState := { s with dsOpen := false }
    if s1.maskedDefined = false then s1
    else
      let s2 : HandleState := { s1 with maskedOpen := false }
      if s2.maskDefined = false then s2
      else { s2 with maskOpen := false }

/-- Handle state after the finally block on each exit path. -/
def handlesAfterExit (p : ExitPath) : HandleState :=
  runFinally (stateAtFinally p)

/-- Modelled from the spec: the claim of C8 speaks of the output path
resolving to the same path as the input. Resolution, following symlinks and
relative components on a real filesystem, is modelled as an abstract
canonicalisation function on paths; two paths resolve to the same path when
the canonicalisation identifies them. -/
def resolvesToSame (resolve : List String → List String) (p q : List String) : Prop :=
  resolve p = resolve q

/-- A concrete resolution environment: the directory entry out/france_tas.nc
is a symlink to in/tas.nc, every other path resolves to itself. -/
def resolveEx (p : List String) : List String :=
  if p = ["out", "france_tas.nc"] then ["in", "tas.nc"] else p

/-- A reference mask with the names the source hardcodes, true everywhere. -/
def okMask : MaskDataset :=
  { varName := "land_sea_mask", dims := ["latitude", "longitude"],
    latAxis := [45], lonAxis := [5], values := fun _ _ => true }

/-- A reference mask whose variable and axis names differ from the hardcoded
ones. -/
def badMask : MaskDataset :=
  { varName := "lsm", dims := ["lat", "lon"],
    latAxis := [45], lonAxis := [5], values := fun _ _ => true }

/-- A projected dataset with two latitude named candidate variables, to
separate first match from last match semantics. -/
def c3ds : Dataset :=
  ⟨["y", "x"],
   [⟨"lat_one", ["y", "x"]⟩, ⟨"lat_two", ["y", "x"]⟩,
    ⟨"lon_one", ["y", "x"]⟩, ⟨"t2m", ["y", "x"]⟩]⟩

/-- A projected dataset with a single candidate pair. -/
def c3w : Dataset :=
  ⟨["y", "x"], [⟨"xlat", ["y", "x"]⟩, ⟨"xlon", ["y", "x"]⟩]⟩

/-- Metadata of a direct lat lon dataset with a temp variable. -/
def llMeta : Dataset :=
  ⟨["time", "lat", "lon"],
   [⟨"time", ["time"]⟩, ⟨"lat", ["lat"]⟩, ⟨"lon", ["lon"]⟩,
    ⟨"temp", ["time", "lat", "lon"]⟩]⟩

/-- A small lat lon file with an ascending latitude axis. -/
def c2fileAsc : NCFile :=
  { meta := llMeta, lats1 := [41, 46, 51], lons1 := [0, 5], dataVars := [],
    lat2 := fun _ _ => 0, lon2 := fun _ _ => 0, ny := 0, nx := 0 }

/-- The same file with the latitude axis stored in descending order. -/
def c2fileDesc : NCFile :=
  { meta := llMeta, lats1 := [51, 46, 41], lons1 := [0, 5], dataVars := [],
    lat2 := fun _ _ => 0, lon2 := fun _ _ => 0, ny := 0, nx := 0 }

/-- Axis of n half degree steps starting at a half degrees, that is the
values a/2, (a+1)/2, and so on. -/
def halfRange (a : ℤ) (n : Nat) : List ℚ :=
  (List.range n).map (fun i => mkRat (a + (i : ℤ)) 2)

/-- The latitude axis of the C1 scenario: 30 to 60 in steps of one half. -/
def c1lats : List ℚ := halfRange 60 61

/-- The longitude axis of the C1 scenario: -10 to 15 in steps of one half. -/
def c1lons : List ℚ := halfRange (-20) 51

/-- The temp variable of the C1 scenario, constant 7 everywhere. -/
def c1temp : LLVar :=
  { name := "temp", dims := ["time", "lat", "lon"], data := fun _ _ _ => some 7 }

/-- The C1 scenario input file. -/
def c1file : NCFile :=
  { meta := llMeta, lats1 := c1lats, lons1 := c1lons, dataVars := [c1temp],
    lat2 := fun _ _ => 0, lon2 := fun _ _ => 0, ny := 0, nx := 0 }

/-- A reference mask on the same grid that is False at every cell. -/
def allFalseMask : MaskDataset :=
  { varName := "land_sea_mask", dims := ["latitude", "longitude"],
    latAxis := c1lats, lonAxis := c1lons, values := fun _ _ => false }

/-- Metadata of a projected dataset carrying the hardcoded lat and lon
variable names. -/
def c5meta : Dataset :=
  ⟨["y", "x"], [⟨"lat", ["y", "x"]⟩, ⟨"lon", ["y", "x"]⟩, ⟨"t2m", ["time", "y", "x"]⟩]⟩

/-- A projected file whose 2D latitudes and longitudes are 0 everywhere, far
outside the France box. -/
def c5file : NCFile :=
  { meta := c5meta, lats1 := [], lons1 := [], dataVars := [],
    lat2 := fun _ _ => 0, lon2 := fun _ _ => 0, ny := 2, nx := 2 }

/-- Test separating the direct lat lon classification from the other two. -/
def isLatLonCI : CoordsInfo → Bool
  | CoordsInfo.latlon _ _ => true
  | _ => false

/-- A job that succeeds. -/
def goodJob : Job := ⟨["in", "tas.nc"], ["out"], c2fileAsc, okMask, true⟩

/-- A job whose original input vanishes between the write and the post write
check, producing the integrity error of source line 155. -/
def badJob : Job := ⟨["in", "pr.nc"], ["out"], c2fileAsc, okMask, false⟩

/-- Composition of fallbacks associates. -/
theorem oor_assoc (a b c : Option String) : oor (oor a b) c = oor a (oor b c) := by
  cases a <;> rfl

/-- An empty fallback is dropped. -/
theorem oor_none (a : Option String) : oor a none = a := by
  cases a <;> rfl

/-- The latitude component of one scan step is the latitude hit of the
variable, falling back to the accumulator. -/
theorem projStep_fst (acc : Option String × Option String) (v : NCVar) :
    (projStep acc v).1 = oor (latHit v) acc.1 := by
  unfold projStep latHit
  by_cases hd : v.dims = ["y", "x"]
  · rw [if_pos hd, if_pos hd]
    by_cases hl : isLatName v.name = true
    · rw [if_pos hl, if_pos hl]; rfl
    · rw [if_neg hl, if_neg hl]
      by_cases hn : isLonName v.name = true
      · rw [if_pos hn]; rfl
      · rw [if_neg hn]; rfl
  · rw [if_neg hd, if_neg hd]; rfl

/-- The longitude component of one scan step is the longitude hit of the
variable, falling back to the accumulator. -/
theorem projStep_snd (acc : Option String × Option String) (v : NCVar) :
    (projStep acc v).2 = oor (lonHit v) acc.2 := by
  unfold projStep lonHit
  by_cases hd : v.dims = ["y", "x"]
  · rw [if_pos hd, if_pos hd]
    by_cases hl : isLatName v.name = true
    · rw [if_pos hl, if_pos hl]; rfl
    · rw [if_neg hl, if_neg hl]
      by_cases hn : isLonName v.name = true
      · rw [if_pos hn, if_pos hn]; rfl
      · rw [if_neg hn, if_neg hn]; rfl
  · rw [if_neg hd, if_neg hd]; rfl

/-- The overwriting fold of the rule 2 scan computes the last hits, falling
back to the initial accumulator. -/
theorem foldl_projStep (vars : List NCVar) :
    ∀ acc : Option String × Option String,
      vars.foldl projStep acc = (oor (lastLatVar vars) acc.1, oor (lastLonVar vars) acc.2) := by
  induction vars with
  | nil =>
    intro acc
    simp [lastLatVar, lastLonVar, oor]
  | cons v vs ih =>
    intro acc
    rw [List.foldl_cons, ih (projStep acc v)]
    rw [projStep_fst, projStep_snd]
    show _ = (oor (oor (lastLatVar vs) (latHit v)) acc.1, oor (oor (lastLonVar vs) (lonHit v)) acc.2)
    rw [oor_assoc, oor_assoc]

/-- The rule 2 scan returns the LAST latitude hit and the LAST longitude hit
of the variable list. -/
theorem projVars_eq (vars : List NCVar) :
    projVars vars = (lastLatVar vars, lastLonVar vars) := by
  unfold projVars
  rw [foldl_projStep vars (none, none)]
  rw [oor_none, oor_none]

/-- A filter by an everywhere false predicate is empty. -/
theorem filter_false_nil {α : Type} (p : α → Bool) (xs : List α)
    (h : ∀ a ∈ xs, p a = false) : xs.filter p = [] := by
  induction xs with
  | nil => rfl
  | cons a t ih =>
    rw [List.filter_cons, h a (by simp)]
    simp only [Bool.false_eq_true, if_false]
    exact ih (fun b hb => h b (by simp [hb]))

/-- Last element of a list with one element appended. -/
theorem getLast?_append_one (l : List String) (a : String) :
    (l ++ [a]).getLast? = some a := by
  induction l with
  | nil => rfl
  | cons h t ih =>
    cases t with
    | nil => rfl
    | cons h2 t2 =>
      simp only [List.cons_append] at ih ⊢
      rw [List.getLast?_cons_cons]
      exact ih

/-- The computed output path never equals the input path: its final component
carries the france prefix, so it is strictly longer than the final component
of the input path. -/
theorem outputFile_ne_input (inputPath outDir : List String) :
    outputFileFor inputPath outDir ≠ inputPath := by
  intro heq
  have h1 : (outputFileFor inputPath outDir).getLast? = some ("france_" ++ pathName inputPath) :=
    getLast?_append_one outDir _
  rw [heq] at h1
  have h3 : (pathName inputPath).length = ("france_" ++ pathName inputPath).length :=
    congrArg (fun o => (Option.getD o "").length) h1
  rw [String.length_append] at h3
  have h4 : ("france_" : String).length = 7 := rfl
  rw [h4] at h3
  omega

/-- C9: a dataset matching none of the three coordinate conventions makes
classification fail with an error carrying the list of all the variable
names of the dataset. -/
theorem C9_classification_error (ds : Dataset)
    (h1 : rule1 ds = false)
    (h2 : hasYX ds = true →
      ((projVars ds.vars).1.isSome && (projVars ds.vars).2.isSome) = false)
    (h3 : latCandidates ds = [] ∨ lonCandidates ds = []) :
    get_coordinates_info ds = Except.error (ds.vars.map (fun v => v.name)) := by
  have hlr : latlonRule ds = Except.error (ds.vars.map (fun v => v.name)) := by
    unfold latlonRule
    rcases h3 with h | h
    · rw [h]
    · rw [h]
      rcases hlat : latCandidates ds with _ | ⟨a, t⟩ <;> rfl
  unfold get_coordinates_info
  rw [if_neg (by simp [h1])]
  by_cases hyx : hasYX ds = true
  · rw [if_pos hyx]
    have h2x := h2 hyx
    rcases hpv : projVars ds.vars with ⟨o1, o2⟩
    cases o1 with
    | none => exact hlr
    | some la =>
      cases o2 with
      | none => exact hlr
      | some lo =>
        rw [hpv] at h2x
        simp at h2x
  · rw [if_neg hyx]
    exact hlr

/-- Witness for C9 at a concrete dataset with a single unrecognised
dimension and a single variable. -/
theorem C9_classification_error_witness :
    get_coordinates_info ⟨["a"], [⟨"foo", ["a"]⟩]⟩ = Except.error ["foo"] :=
  C9_classification_error ⟨["a"], [⟨"foo", ["a"]⟩]⟩ (by decide) (by decide) (by decide)

/-- C3 counterexample: the claim says the FIRST variable with dimensions
(y, x) whose name contains lat becomes the latitude variable; on a dataset
with two such candidates the source selects the last one, lat_two, while the
first match is lat_one. -/
theorem C3_counterexample :
    get_coordinates_info c3ds = Except.ok (CoordsInfo.projected "x" "y" "lat_two" "lon_one") ∧
    firstLatVarSpec c3ds.vars = some "lat_one" ∧
    ("lat_two" == "lat_one") = false := by
  refine ⟨rfl, rfl, by decide⟩

/-- C3 amended: on a dataset passing the rule 2 guard and not rule 1, the
classification returns Projected with the LAST variable of dimension tuple
(y, x) whose name contains a latitude pattern, and the LAST such variable
whose name contains a longitude pattern without matching a latitude pattern,
in declaration order. -/
theorem C3_amended (ds : Dataset) (la lo : String)
    (h1 : rule1 ds = false) (h2 : hasYX ds = true)
    (hla : lastLatVar ds.vars = some la) (hlo : lastLonVar ds.vars = some lo) :
    get_coordinates_info ds = Except.ok (CoordsInfo.projected "x" "y" la lo) := by
  unfold get_coordinates_info
  rw [if_neg (by simp [h1]), if_pos h2, projVars_eq, hla, hlo]

/-- Witness for C3 amended at a concrete projected dataset. -/
theorem C3_amended_witness :
    get_coordinates_info c3w = Except.ok (CoordsInfo.projected "x" "y" "xlat" "xlon") :=
  C3_amended c3w "xlat" "xlon" (by decide) (by decide) (by decide) (by decide)

/-- The boolean any over the dimensions agrees with the existence of a
spatial dimension among them. -/
theorem anySpatial_iff (dims : List String) :
    ((dims.any (fun d => decide (d ∈ spatialAnyList))) = true) ↔
      (∃ d ∈ spatialAnyList, d ∈ dims) := by
  rw [List.any_eq_true]
  constructor
  · rintro ⟨d, h1, h2⟩
    exact ⟨d, of_decide_eq_true h2, h1⟩
  · rintro ⟨d, h1, h2⟩
    exact ⟨d, h2, decide_eq_true h1⟩

/-- C4 counterexample: the variable t2m with dimensions (time, x) has no full
spatial axis pair, yet the masking loop applies the mask to it, expanding
one leading axis for the time dimension; the claim would leave it untouched. -/
theorem C4_counterexample :
    maskActionFor "t2m" ["time", "x"] = MaskAction.applied 1 ∧
    hasSpatialPairB ["time", "x"] = false := by
  decide

/-- C4 amended: for a variable that is not a bounds vertex variable, the mask
is broadcast and applied exactly when AT LEAST ONE of y, x, rlat, rlon is
among its dimensions, with one leading axis per dimension outside that set,
in the order of the dimensions of the variable; a variable with none of
those dimensions is passed through unchanged. -/
theorem C4_amended (name : String) (dims : List String)
    (hb : ¬ (strContains name "bounds" = true ∧ "nvertex" ∈ dims)) :
    maskActionFor name dims =
      (if (dims.any (fun d => decide (d ∈ spatialAnyList))) = true
       then MaskAction.applied ((dims.filter (fun d => decide (d ∉ spatialExcludeList))).length)
       else MaskAction.untouched) := by
  unfold maskActionFor
  rw [if_neg hb]
  by_cases hs : ∃ d ∈ spatialAnyList, d ∈ dims
  · rw [if_pos hs, if_pos ((anySpatial_iff dims).mpr hs)]
  · rw [if_neg hs, if_neg (fun hc => hs ((anySpatial_iff dims).mp hc))]

/-- Witness for C4 amended at a variable with dimensions (time, y, x). -/
theorem C4_amended_witness :
    maskActionFor "t2m" ["time", "y", "x"] =
      (if ((["time", "y", "x"] : List String).any (fun d => decide (d ∈ spatialAnyList))) = true
       then MaskAction.applied (((["time", "y", "x"] : List String).filter
         (fun d => decide (d ∉ spatialExcludeList))).length)
       else MaskAction.untouched) :=
  C4_amended "t2m" ["time", "y", "x"] (by decide)

/-- C2 amended: the fixed slices slice(41, 51.5) and slice(-5, 10) of the
source select the closed geographic interval only on a nondecreasing axis;
on any axis that is not nondecreasing, pandas reads the bounds in axis order
and the selection is empty, not the geographic subset. -/
theorem C2_amended (xs : List ℚ) :
    (selSlice xs 41 (mkRat 103 2) =
      (if isAscending xs = true
       then xs.filter (fun v => decide (41 ≤ v) && decide (v ≤ mkRat 103 2)) else [])) ∧
    (selSlice xs (-5) 10 =
      (if isAscending xs = true
       then xs.filter (fun v => decide (-5 ≤ v) && decide (v ≤ 10)) else [])) := by
  have hm : (mkRat 103 2 : ℚ) = 103/2 := by
    norm_num [Rat.mkRat_eq_divInt, Rat.divInt_eq_div]
  constructor
  · unfold selSlice
    by_cases h : isAscending xs = true
    · rw [if_pos h, if_pos h]
    · rw [if_neg h, if_neg h]
      apply filter_false_nil
      intro a _
      by_cases hx : (mkRat 103 2 : ℚ) ≤ a
      · rw [hm] at hx
        have hy : ¬ a ≤ (41 : ℚ) := by linarith
        rw [decide_eq_false hy, Bool.and_false]
      · rw [decide_eq_false hx, Bool.false_and]
  · unfold selSlice
    by_cases h : isAscending xs = true
    · rw [if_pos h, if_pos h]
    · rw [if_neg h, if_neg h]
      apply filter_false_nil
      intro a _
      by_cases hx : (10 : ℚ) ≤ a
      · have hy : ¬ a ≤ (-5 : ℚ) := by linarith
        rw [decide_eq_false hy, Bool.and_false]
      · rw [decide_eq_false hx, Bool.false_and]

/-- C2 counterexample: the same geographic grid stored with a descending
latitude axis produces an empty latitude selection, not the geographic
subset [51, 46, 41]; the ascending twin keeps all three points, so the two
orders do not yield the same geographic subset, and the descending run
finishes without any error. -/
theorem C2_counterexample :
    resIsError (process_netcdf_file ["in", "t.nc"] ["out"] c2fileDesc okMask true) = false ∧
    resLats (process_netcdf_file ["in", "t.nc"] ["out"] c2fileDesc okMask true) = [] ∧
    resLats (process_netcdf_file ["in", "t.nc"] ["out"] c2fileAsc okMask true) = [41, 46, 51] := by
  refine ⟨rfl, by decide, by decide⟩

/-- C1: on the scenario input the crop is correct, the axes become
41 to 51.5 and -5 to 10, but the mask is never applied to temp: with a
reference mask that is False everywhere, so that the claim requires every
temp cell of the output to be the missing value sentinel, the output temp
value at the cell (time 0, lat 45, lon 2) is still the input value some 7,
because the masking loop only treats variables having one of the dimensions
y, x, rlat, rlon, and temp has dimensions (time, lat, lon). -/
theorem C1_bug :
    resLats (process_netcdf_file ["in", "tas.nc"] ["out"] c1file allFalseMask true) = halfRange 82 22 ∧
    resLons (process_netcdf_file ["in", "tas.nc"] ["out"] c1file allFalseMask true) = halfRange (-10) 31 ∧
    nearestMask allFalseMask 45 2 = false ∧
    maskActionFor "temp" ["time", "lat", "lon"] = MaskAction.untouched ∧
    resFirstVarAt (process_netcdf_file ["in", "tas.nc"] ["out"] c1file allFalseMask true) 0 45 2 = some 7 := by
  refine ⟨by decide, by decide, rfl, by decide, rfl⟩

/-- C5 counterexample: on a projected file where no cell satisfies the France
predicate, processing completes without any error and silently returns an
output with zero kept rows and zero kept columns; the claim requires an
empty region error. -/
theorem C5_counterexample :
    france_mask 0 0 = false ∧
    resIsError (process_netcdf_file ["in", "a.nc"] ["out"] c5file okMask true) = false ∧
    resKeptRows (process_netcdf_file ["in", "a.nc"] ["out"] c5file okMask true) = [] ∧
    resKeptCols (process_netcdf_file ["in", "a.nc"] ["out"] c5file okMask true) = [] := by
  refine ⟨by decide, rfl, by decide, by decide⟩

/-- The kept rows of the drop crop are empty when no cell satisfies the
France predicate. -/
theorem keptRows_nil (f : NCFile)
    (hno : ∀ i ∈ List.range f.ny, ∀ j ∈ List.range f.nx,
      france_mask (f.lat2 i j) (f.lon2 i j) = false) :
    keptRows f = [] := by
  apply filter_false_nil
  intro i hi
  cases hq : (List.range f.nx).any (fun j => france_mask (f.lat2 i j) (f.lon2 i j)) with
  | false => rfl
  | true =>
    rw [List.any_eq_true] at hq
    obtain ⟨j, hj, hf⟩ := hq
    rw [hno i hi j hj] at hf
    exact Bool.noConfusion hf

/-- The kept columns of the drop crop are empty when no cell satisfies the
France predicate. -/
theorem keptCols_nil (f : NCFile)
    (hno : ∀ i ∈ List.range f.ny, ∀ j ∈ List.range f.nx,
      france_mask (f.lat2 i j) (f.lon2 i j) = false) :
    keptCols f = [] := by
  apply filter_false_nil
  intro j hj
  cases hq : (List.range f.ny).any (fun i => france_mask (f.lat2 i j) (f.lon2 i j)) with
  | false => rfl
  | true =>
    rw [List.any_eq_true] at hq
    obtain ⟨i, hi, hf⟩ := hq
    rw [hno i hi j hj] at hf
    exact Bool.noConfusion hf

/-- C5 amended: on a projected or rotated pole file in which no cell
satisfies the France predicate, processing raises no error at all: the drop
crop keeps zero rows and zero columns and the run returns an empty output. -/
theorem C5_amended (inputPath outDir : List String) (f : NCFile) (m : MaskDataset)
    (ci : CoordsInfo)
    (hg : outputFileFor inputPath outDir ≠ inputPath)
    (hci : get_coordinates_info f.meta = Except.ok ci)
    (hnl : isLatLonCI ci = false)
    (hv : hasHardcodedLatLonVars f.meta = true)
    (hm : maskOk m = true)
    (hno : ∀ i ∈ List.range f.ny, ∀ j ∈ List.range f.nx,
      france_mask (f.lat2 i j) (f.lon2 i j) = false) :
    process_netcdf_file inputPath outDir f m true = Except.ok (Output.projOut [] []) := by
  unfold process_netcdf_file
  rw [if_neg hg, hci]
  cases ci with
  | latlon a c => simp [isLatLonCI] at hnl
  | rotatedPole a c =>
    show (if hasHardcodedLatLonVars f.meta = true then
            if maskOk m = true then
              if true = true then Except.ok (Output.projOut (keptRows f) (keptCols f))
              else Except.error ProcErr.integrity
            else Except.error ProcErr.maskAccess
          else Except.error ProcErr.keyError) = Except.ok (Output.projOut [] [])
    rw [if_pos hv, if_pos hm, if_pos rfl, keptRows_nil f hno, keptCols_nil f hno]
  | projected a c d e2 =>
    show (if hasHardcodedLatLonVars f.meta = true then
            if maskOk m = true then
              if true = true then Except.ok (Output.projOut (keptRows f) (keptCols f))
              else Except.error ProcErr.integrity
            else Except.error ProcErr.maskAccess
          else Except.error ProcErr.keyError) = Except.ok (Output.projOut [] [])
    rw [if_pos hv, if_pos hm, if_pos rfl, keptRows_nil f hno, keptCols_nil f hno]

/-- Witness for C5 amended at the concrete all zero projected file. -/
theorem C5_amended_witness :
    process_netcdf_file ["in", "a.nc"] ["out"] c5file okMask true =
      Except.ok (Output.projOut [] []) :=
  C5_amended ["in", "a.nc"] ["out"] c5file okMask
    (CoordsInfo.projected "x" "y" "lat" "lon")
    (by decide) rfl rfl (by decide) (by decide) (by decide)

/-- C6 counterexample: the first job of the batch fails with the integrity
error, yet process_all_directories counts it as one failed file and
continues, processing the second job successfully; the claim requires the
integrity error to stop the batch and not be counted. -/
theorem C6_counterexample :
    resErr (process_netcdf_file badJob.inputPath badJob.outDir badJob.file
      badJob.mask badJob.inputSurvives) = some ProcErr.integrity ∧
    process_all_directories [badJob, goodJob] = ⟨2, 1, 1⟩ := by
  refine ⟨rfl, by decide⟩

/-- C6 amended: every per file error, the integrity error included, is caught
by the catch all of the batch loop, converted into an increment of the
failed counter, and the fold continues with the remaining jobs. -/
theorem C6_amended (pre : BatchStats) (j : Job) (rest : List Job) (e : ProcErr)
    (h : process_netcdf_file j.inputPath j.outDir j.file j.mask j.inputSurvives =
      Except.error e) :
    (j :: rest).foldl batchStep pre =
      rest.foldl batchStep { pre with failed := pre.failed + 1 } := by
  rw [List.foldl_cons]
  congr 1
  unfold batchStep
  rw [h]

/-- Witness for C6 amended: the integrity failing job increments the failed
counter and the fold continues. -/
theorem C6_amended_witness :
    ([badJob, goodJob].foldl batchStep { total := 2, processed := 0, failed := 0 }) =
      [goodJob].foldl batchStep { total := 2, processed := 0, failed := 1 } :=
  C6_amended { total := 2, processed := 0, failed := 0 } badJob [goodJob]
    ProcErr.integrity rfl

/-- C7 counterexample: on the exit path where the input open fails after the
reference mask was already opened, the mask handle is open when the finally
block runs and is still open after it: ds.close() raises NameError, the bare
except suppresses it, and mask_ds.close() is never reached. -/
theorem C7_counterexample :
    (stateAtFinally ExitPath.openInputFailed).maskOpen = true ∧
    (handlesAfterExit ExitPath.openInputFailed).maskOpen = true := by
  decide

/-- C7 amended: the finally block closes all three handles on the normal
return path and on error paths after the masked copy exists; on the path
where the input open failed and on error paths before the masked copy
exists, the reference mask handle remains open, because the close sequence
aborts at the first unbound variable. -/
theorem C7_amended :
    handlesAfterExit ExitPath.normalReturn = ⟨true, true, true, false, false, false⟩ ∧
    handlesAfterExit ExitPath.errorAfterMaskedCopy = ⟨true, true, true, false, false, false⟩ ∧
    handlesAfterExit ExitPath.errorBeforeMaskedCopy = ⟨true, true, false, true, false, false⟩ ∧
    handlesAfterExit ExitPath.openInputFailed = ⟨true, false, false, true, false, false⟩ ∧
    handlesAfterExit ExitPath.openMaskFailed = ⟨false, false, false, false, false, false⟩ := by
  decide

/-- C8 counterexample: in a filesystem where out/france_tas.nc is a symlink
to in/tas.nc, the computed output path resolves to the same path as the
input file, yet processing raises no path collision error and completes
normally, because the source compares the unresolved paths. -/
theorem C8_counterexample :
    resolvesToSame resolveEx (outputFileFor ["in", "tas.nc"] ["out"]) ["in", "tas.nc"] ∧
    resIsError (process_netcdf_file ["in", "tas.nc"] ["out"] c2fileAsc okMask true) = false ∧
    resIsPathCollision (process_netcdf_file ["in", "tas.nc"] ["out"] c2fileAsc okMask true) = false := by
  refine ⟨rfl, rfl, rfl⟩

/-- C8 amended: the guard compares the literal unresolved paths, and since
the final component of the computed output path is france_ prefixed to the
final component of the input path, the two paths are never equal, so the
path collision error is never raised at all, for any input. -/
theorem C8_amended (inputPath outDir : List String) (f : NCFile) (m : MaskDataset)
    (b : Bool) :
    (outputFileFor inputPath outDir == inputPath) = false ∧
    resIsPathCollision (process_netcdf_file inputPath outDir f m b) = false := by
  have hne := outputFile_ne_input inputPath outDir
  refine ⟨beq_eq_false_iff_ne.mpr hne, ?_⟩
  unfold process_netcdf_file
  rw [if_neg hne]
  rcases hci : get_coordinates_info f.meta with names | ci
  · rfl
  · rcases ci with ⟨a, c⟩ | ⟨a, c, d, e2⟩ | ⟨a, c⟩ <;>
      by_cases h1 : hasHardcodedLatLonVars f.meta = true <;>
      by_cases h2 : maskOk m = true <;>
      by_cases h3 : b = true <;>
      simp [h1, h2, h3, resIsPathCollision]

/-- C10: whenever the reference mask dataset does not expose a variable
literally named land_sea_mask with coordinate axes literally named latitude
and longitude, processing fails for every input file, whatever the content
of the mask. -/
theorem C10_mask_names (m : MaskDataset) (hm : maskOk m = false)
    (inputPath outDir : List String) (f : NCFile) (b : Bool) :
    resIsError (process_netcdf_file inputPath outDir f m b) = true := by
  unfold process_netcdf_file
  by_cases hg : outputFileFor inputPath outDir = inputPath
  · rw [if_pos hg]; rfl
  · rw [if_neg hg]
    rcases hci : get_coordinates_info f.meta with names | ci
    · rfl
    · have hm2 : ¬ (maskOk m = true) := by simp [hm]
      rcases ci with ⟨a, c⟩ | ⟨a, c, d, e2⟩ | ⟨a, c⟩ <;>
        by_cases h1 : hasHardcodedLatLonVars f.meta = true <;>
        simp [h1, hm2, resIsError]

/-- Witness for C10 at a mask named lsm with axes lat and lon. -/
theorem C10_mask_names_witness :
    resIsError (process_netcdf_file ["in", "tas.nc"] ["out"] c2fileAsc badMask true) = true :=
  C10_mask_names badMask (by decide) ["in", "tas.nc"] ["out"] c2fileAsc true
